import Mathlib

/-
Verification of the orthomosaic-processing gateway (api.py, sb_connect.py).

The embedding models each source function as a pure Lean function over
explicit parameters standing for the outcomes of external effects
(environment variables, the processing function, HTTP POSTs, the storage
backend).  Exceptions are modelled with `Except` / `Option String`
outcome fields; each function additionally returns the trace of the
external calls it attempted, so that "performs no network call" style
properties are statable.
-/

namespace Processamento

/-- Python truthiness of an `os.getenv` result / optional string argument:
`None` and the empty string are falsy, every other string is truthy. -/
def truthy : Option String → Bool
  | none => false
  | some s => !(s == "")

/- ## Webhook notifier: `enviar_webhook` (api.py lines 57-94) -/

/-- Severity of a log record emitted through the module logger. -/
inductive LogLevel where
  | info
  | warning
  | error
deriving Repr, DecidableEq

/-- A JSON object, modelled as an insertion-ordered association list. -/
abbrev Payload := List (String × String)

/-- Outcome of the single `requests.post` call made by `enviar_webhook`:
either a response with a status code and body text, or a raised
transport-level exception with a message. -/
inductive PostOutcome where
  | resp (status_code : Nat) (text : String)
  | exc (msg : String)
deriving Repr, DecidableEq

/-- Observable effects of one `enviar_webhook` call: the payloads of the
HTTP POST attempts made, and the log records written. -/
structure WebhookRun where
  postedPayloads : List Payload
  logs : List (LogLevel × String)
deriving Repr, DecidableEq

/-- Payload construction of `enviar_webhook` (api.py lines 72-79): the three
fixed keys, plus `mensagem` exactly when the optional message is truthy
(`if mensagem:` in Python omits both `None` and the empty string). -/
def webhookPayload (id_projeto id_talhao status : String)
    (mensagem : Option String) : Payload :=
  let payload := [("id_projeto", id_projeto), ("id_talhao", id_talhao),
                  ("status", status)]
  if truthy mensagem then payload ++ [("mensagem", mensagem.getD "")]
  else payload

/-- `enviar_webhook` (api.py lines 57-94).  `webhook_url` is the value of
`os.getenv("WEBHOOK_URL")`; `post` is the outcome of the one
`requests.post` attempt.  The result is `Except` so that the absence of a
raised exception is a statable property; the body's `try`/`except`
catches the POST outcome in every case. -/
def enviar_webhook (webhook_url : Option String)
    (id_projeto id_talhao status : String) (mensagem : Option String)
    (post : PostOutcome) : Except String WebhookRun :=
  if !(truthy webhook_url) then
    .ok ⟨[], [(.warning, "URL de webhook não configurada. Notificação não enviada.")]⟩
  else
    let payload := webhookPayload id_projeto id_talhao status mensagem
    match post with
    | .resp code text =>
        if 200 ≤ code ∧ code < 300 then
          .ok ⟨[payload], [(.info, "Webhook enviado com sucesso: " ++ status)]⟩
        else
          .ok ⟨[payload],
               [(.error, "Falha ao enviar webhook: " ++ toString code ++ " - " ++ text)]⟩
    | .exc m =>
        .ok ⟨[payload], [(.error, "Erro ao enviar webhook: " ++ m)]⟩

/- ## Task orchestrator: `executar_processamento_background` (api.py lines 97-128) -/

/-- One invocation of `enviar_webhook` made by the orchestrator, recorded
with the status and optional message arguments it was passed. -/
structure WebhookCall where
  status : String
  mensagem : Option String
deriving Repr, DecidableEq

/-- Observable behaviour of one background run: the `enviar_webhook`
invocations attempted in order, the exception (message) propagated to the
hosting execution context if any, and the message of a webhook-send
failure logged by the inner `except` handler if any. -/
structure BgRun where
  calls : List WebhookCall
  raised : Option String
  secondaryLogged : Option String
deriving Repr, DecidableEq

/-- Message of the `ValueError` raised when the Supabase credentials are
not both configured (api.py line 111). -/
def configErrMsg : String := "Credenciais do Supabase não configuradas"

/-- The `try` block of `executar_processamento_background` (api.py lines
100-120): check the credentials, call `enviar_webhook(..., "iniciado")`,
run `processar_ortomosaico`.  Returns the webhook calls attempted and the
exception message escaping the block, if any.  `iniciadoFault` models a
hypothetical exception raised by the started-notification call; `proc` is
the outcome of `processar_ortomosaico` (normal return of a Bool, or a
raised exception's message). -/
def bgTryBody (supabase_url supabase_key : Option String)
    (iniciadoFault : Option String) (proc : Except String Bool) :
    List WebhookCall × Option String :=
  if !(truthy supabase_url && truthy supabase_key) then
    ([], some configErrMsg)
  else
    match iniciadoFault with
    | some w => ([⟨"iniciado", none⟩], some w)
    | none =>
        match proc with
        | .ok _ => ([⟨"iniciado", none⟩], none)
        | .error m => ([⟨"iniciado", none⟩], some m)

/-- `executar_processamento_background` (api.py lines 97-128): run the
`try` block; on an escaping exception, attempt the
`enviar_webhook(..., "erro", str(e))` call (whose own hypothetical
failure `erroWebhookFault` is caught and logged by the inner handler) and
re-raise the original exception. -/
def executar_processamento_background (supabase_url supabase_key : Option String)
    (iniciadoFault : Option String) (proc : Except String Bool)
    (erroWebhookFault : Option String) : BgRun :=
  match bgTryBody supabase_url supabase_key iniciadoFault proc with
  | (calls, none) => ⟨calls, none, none⟩
  | (calls, some m) => ⟨calls ++ [⟨"erro", some m⟩], some m, erroWebhookFault⟩

/- ## Request gateway: `iniciar_processamento` (api.py lines 131-167) -/

/-- Outcome of the `POST /processar` handler: either the JSON response
body, or an `HTTPException` with a status code and detail string. -/
inductive HttpOutcome where
  | response (body : List (String × String))
  | httpError (status_code : Nat) (detail : String)
deriving Repr, DecidableEq

/-- Detail of the `HTTPException(status_code=400, ...)` raised on empty
input (api.py line 149). -/
def validationDetail : String := "ID de projeto e talhão são obrigatórios"

/-- Models Starlette's `HTTPException.__str__`, used when the handler's
catch-all stringifies a caught `HTTPException` via `str(e)`. -/
def strOfHTTPException (status_code : Nat) (detail : String) : String :=
  toString status_code ++ ": " ++ detail

/-- Observable behaviour of one `POST /processar` request: the
`background_tasks.add_task` invocations made (with their
`(id_projeto, id_talhao)` arguments) and the HTTP outcome. -/
structure GatewayRun where
  scheduledTasks : List (String × String)
  outcome : HttpOutcome
deriving Repr, DecidableEq

/-- `iniciar_processamento` (api.py lines 131-167).  `schedFault` models a
hypothetical exception raised by `background_tasks.add_task` (message on
`some`).  Note the source's catch-all: any exception raised inside the
`try`, including the validation `HTTPException(400)`, is caught and
re-raised as `HTTPException(500, str(e))`. -/
def iniciar_processamento (id_projeto id_talhao : String)
    (schedFault : Option String) : GatewayRun :=
  if id_projeto == "" || id_talhao == "" then
    ⟨[], .httpError 500 (strOfHTTPException 400 validationDetail)⟩
  else
    match schedFault with
    | some m => ⟨[], .httpError 500 m⟩
    | none =>
        ⟨[(id_projeto, id_talhao)],
         .response [("id_projeto", id_projeto), ("id_talhao", id_talhao),
                    ("status", "iniciado"),
                    ("mensagem", "Processamento iniciado com sucesso")]⟩

/- ## Storage gateway: sb_connect.py -/

/-- Models Python `s.split('/', 1)` on the character list: `none` when the
separator is absent, otherwise the characters before the first `/` and
the characters after it. -/
def splitFirstSlash : List Char → Option (List Char × List Char)
  | [] => none
  | c :: cs =>
      if c = '/' then some ([], cs)
      else
        match splitFirstSlash cs with
        | none => none
        | some (l, r) => some (c :: l, r)

/-- Locator parsing shared by `baixar_arquivo`, `enviar_arquivo` and
`excluir_arquivo` (sb_connect.py lines 73-75, 113-115, 183-185):
`partes = caminho_bucket.split('/', 1); bucket = partes[0];
caminho_arquivo = partes[1] if len(partes) > 1 else ""`. -/
def splitLocator (s : String) : String × String :=
  match splitFirstSlash s.data with
  | none => (s, "")
  | some (l, r) => (⟨l⟩, ⟨r⟩)

/-- Exceptions raised by the storage gateway: the local-precondition
`FileNotFoundError` of `enviar_arquivo`, or an error propagated from the
storage backend. -/
inductive StorageErr where
  | fileNotFound (msg : String)
  | backend (msg : String)
deriving Repr, DecidableEq

/-- A network call against the storage backend, with the arguments the
gateway passed to it. -/
inductive StorageCall where
  | download (bucket key : String)
  | upload (bucket key : String) (upsert : Bool) (contentType : String)
  | getPublicUrl (bucket key : String)
  | remove (bucket : String) (keys : List String)
deriving Repr, DecidableEq

/-- `baixar_arquivo` (sb_connect.py lines 56-94): parse the locator,
download, write locally, return the local path; any backend error is
logged and re-raised.  `downloadFault` is the backend outcome of the
`download` call. -/
def baixar_arquivo (caminho_bucket caminho_local : String)
    (downloadFault : Option String) :
    List StorageCall × Except StorageErr String :=
  let (bucket, caminho_arquivo) := splitLocator caminho_bucket
  match downloadFault with
  | some e => ([.download bucket caminho_arquivo], .error (.backend e))
  | none => ([.download bucket caminho_arquivo], .ok caminho_local)

/-- `enviar_arquivo` (sb_connect.py lines 96-148): parse the locator, check
the local file exists (raising `FileNotFoundError` before any network
call otherwise), stream-upload with upsert and binary content type, then
try to resolve the public URL — a failure there is logged as a warning
and the call returns `None` instead of failing. -/
def enviar_arquivo (caminho_local caminho_bucket : String)
    (localExists : Bool) (uploadFault : Option String)
    (urlOutcome : Except String String) :
    List StorageCall × Except StorageErr (Option String) :=
  let (bucket, caminho_arquivo) := splitLocator caminho_bucket
  if !localExists then
    ([], .error (.fileNotFound ("Arquivo " ++ caminho_local ++ " não encontrado")))
  else
    match uploadFault with
    | some e =>
        ([.upload bucket caminho_arquivo true "application/octet-stream"],
         .error (.backend e))
    | none =>
        match urlOutcome with
        | .ok url =>
            ([.upload bucket caminho_arquivo true "application/octet-stream",
              .getPublicUrl bucket caminho_arquivo], .ok (some url))
        | .error _ =>
            ([.upload bucket caminho_arquivo true "application/octet-stream",
              .getPublicUrl bucket caminho_arquivo], .ok none)

/-- `excluir_arquivo` (sb_connect.py lines 170-197): parse the locator,
remove the single key, return `True`; backend errors are logged and
re-raised. -/
def excluir_arquivo (caminho_bucket : String) (removeFault : Option String) :
    List StorageCall × Except StorageErr Bool :=
  let (bucket, caminho_arquivo) := splitLocator caminho_bucket
  match removeFault with
  | some e => ([.remove bucket [caminho_arquivo]], .error (.backend e))
  | none => ([.remove bucket [caminho_arquivo]], .ok true)

/- ## Helper lemmas about locator splitting -/

/-- When `splitFirstSlash` finds no separator, the list has no slash. -/
theorem splitFirstSlash_eq_none {cs : List Char}
    (h : splitFirstSlash cs = none) : '/' ∉ cs := by
  induction cs with
  | nil => simp
  | cons c cs ih =>
    by_cases hc : c = '/'
    · simp [splitFirstSlash, hc] at h
    · rw [splitFirstSlash, if_neg hc] at h
      cases hsp : splitFirstSlash cs with
      | none =>
        simp only [List.mem_cons, not_or]
        exact ⟨fun hcc => hc hcc.symm, ih hsp⟩
      | some p =>
        obtain ⟨l, r⟩ := p
        rw [hsp] at h
        simp at h

/-- When `splitFirstSlash` splits, it splits at the first slash: the list
is the prefix, a slash, then the suffix, and the prefix has no slash. -/
theorem splitFirstSlash_eq_some {cs l r : List Char}
    (h : splitFirstSlash cs = some (l, r)) :
    cs = l ++ '/' :: r ∧ '/' ∉ l := by
  induction cs generalizing l r with
  | nil => simp [splitFirstSlash] at h
  | cons c cs ih =>
    by_cases hc : c = '/'
    · rw [splitFirstSlash, if_pos hc] at h
      subst hc
      injection h with h
      injection h with hl hr
      subst hl hr
      simp
    · rw [splitFirstSlash, if_neg hc] at h
      cases hsp : splitFirstSlash cs with
      | none => rw [hsp] at h; simp at h
      | some p =>
        obtain ⟨l0, r0⟩ := p
        rw [hsp] at h
        injection h with h
        injection h with hl hr
        obtain ⟨hcs, hnl⟩ := ih hsp
        subst hl hr hcs
        refine ⟨rfl, ?_⟩
        simp only [List.mem_cons, not_or]
        exact ⟨fun hcc => hc hcc.symm, hnl⟩

/-- If the string contains a slash, `splitFirstSlash` on its characters
succeeds. -/
theorem splitFirstSlash_isSome_of_mem {cs : List Char} (h : '/' ∈ cs) :
    splitFirstSlash cs ≠ none := by
  intro hn
  exact absurd h (splitFirstSlash_eq_none hn)

/- ## Claim theorems -/

/-- C1: the claim fails on the code.  With both credentials configured and
`processar_ortomosaico` returning normally (here `True`), the background
run attempts only the `iniciado` webhook call: the success path of
`executar_processamento_background` sends no `concluido` (nor any other
terminal) notification, so the run ends with zero terminal notifications. -/
theorem bg_success_run_emits_no_terminal_webhook :
    executar_processamento_background (some "https://sb.example")
        (some "service-key") none (.ok true) none =
      ⟨[⟨"iniciado", none⟩], none, none⟩ := rfl

/-- C2: the claim fails on the code.  For an empty `id_projeto`, the
handler's catch-all `except Exception` intercepts the
`HTTPException(status_code=400, ...)` raised by the validation and
re-raises it as `HTTPException(status_code=500, detail=str(e))`, so the
client receives a 500, not a 400; no background task is scheduled. -/
theorem gateway_empty_id_gives_500_no_schedule :
    iniciar_processamento "" "talhao-7" none =
      ⟨[], .httpError 500 "400: ID de projeto e talhão são obrigatórios"⟩ := by
  decide

/-- C3: when `processar_ortomosaico` raises with message `m`, the run
attempts an `erro` webhook call carrying exactly `m`, and the exception
propagated to the hosting context is the original `m` — even when the
`erro` webhook call itself raises (`erroWebhookFault`), which is only
logged (`secondaryLogged`) and never replaces the original exception. -/
theorem bg_processing_error_notifies_and_reraises_original
    (supabase_url supabase_key : Option String) (m : String)
    (erroWebhookFault : Option String)
    (h : (truthy supabase_url && truthy supabase_key) = true) :
    executar_processamento_background supabase_url supabase_key none
        (.error m) erroWebhookFault =
      ⟨[⟨"iniciado", none⟩, ⟨"erro", some m⟩], some m, erroWebhookFault⟩ := by
  simp [executar_processamento_background, bgTryBody, h]

/-- C3 witness: concrete failing run with a webhook that itself fails. -/
theorem bg_processing_error_notifies_witness :
    executar_processamento_background (some "https://sb.example")
        (some "service-key") none (.error "falha no pipeline")
        (some "webhook fora do ar") =
      ⟨[⟨"iniciado", none⟩, ⟨"erro", some "falha no pipeline"⟩],
       some "falha no pipeline", some "webhook fora do ar"⟩ :=
  bg_processing_error_notifies_and_reraises_original (some "https://sb.example")
    (some "service-key") "falha no pipeline" (some "webhook fora do ar") (by decide)

/-- C4: the credentials check runs before the `iniciado` notification: when
either credential is absent the run raises the configuration error and no
`iniciado` webhook call is ever attempted; when the check passes, the
very first webhook call of the run is `iniciado`. -/
theorem bg_config_checked_before_started
    (supabase_url supabase_key iniciadoFault : Option String)
    (proc : Except String Bool) (erroWebhookFault : Option String) :
    ((truthy supabase_url && truthy supabase_key) = false →
      (executar_processamento_background supabase_url supabase_key
          iniciadoFault proc erroWebhookFault).raised = some configErrMsg ∧
      ∀ c ∈ (executar_processamento_background supabase_url supabase_key
          iniciadoFault proc erroWebhookFault).calls, c.status ≠ "iniciado") ∧
    ((truthy supabase_url && truthy supabase_key) = true →
      (executar_processamento_background supabase_url supabase_key
          iniciadoFault proc erroWebhookFault).calls.head? =
        some ⟨"iniciado", none⟩) := by
  constructor
  · intro h
    simp [executar_processamento_background, bgTryBody, h]
  · intro h
    cases iniciadoFault <;> cases proc <;>
      simp [executar_processamento_background, bgTryBody, h]

/-- C4 witness: a run with the URL credential absent raises the
configuration error, and a fully configured run starts with `iniciado`. -/
theorem bg_config_checked_before_started_witness :
    (executar_processamento_background none (some "service-key") none
        (.ok true) none).raised = some configErrMsg ∧
    (executar_processamento_background (some "https://sb.example")
        (some "service-key") none (.ok true) none).calls.head? =
      some ⟨"iniciado", none⟩ :=
  ⟨((bg_config_checked_before_started none (some "service-key") none
      (.ok true) none).1 (by decide)).1,
   (bg_config_checked_before_started (some "https://sb.example")
      (some "service-key") none (.ok true) none).2 (by decide)⟩

/-- C5: a normal return of `processar_ortomosaico` with any value, the
falsy `False` included, is not treated as a failure: the run attempts no
`erro` webhook call (its calls are exactly `[iniciado]`) and raises no
exception. -/
theorem bg_normal_return_is_not_failure
    (supabase_url supabase_key : Option String) (sucesso : Bool)
    (h : (truthy supabase_url && truthy supabase_key) = true) :
    executar_processamento_background supabase_url supabase_key none
        (.ok sucesso) none =
      ⟨[⟨"iniciado", none⟩], none, none⟩ := by
  simp [executar_processamento_background, bgTryBody, h]

/-- C5 witness: a run whose processing function returns `False`. -/
theorem bg_normal_return_is_not_failure_witness :
    executar_processamento_background (some "https://sb.example")
        (some "service-key") none (.ok false) none =
      ⟨[⟨"iniciado", none⟩], none, none⟩ :=
  bg_normal_return_is_not_failure (some "https://sb.example")
    (some "service-key") false (by decide)

/-- C6: every locator-parsing operation (`baixar_arquivo`,
`enviar_arquivo`, `excluir_arquivo`) splits on the first `/` only: the
bucket is the slash-free prefix, the key is everything after the first
slash (further slashes included), and a slash-free locator is the bucket
with an empty key; the two worked examples of the spec evaluate as
stated. -/
theorem locator_split_on_first_slash (s caminho_local : String)
    (f1 f2 f3 : Option String) (u : Except String String) :
    ('/' ∉ s.data → splitLocator s = (s, "")) ∧
    ('/' ∈ s.data →
      s.data = (splitLocator s).1.data ++ '/' :: (splitLocator s).2.data ∧
      '/' ∉ (splitLocator s).1.data) ∧
    (baixar_arquivo s caminho_local f1).1 =
      [StorageCall.download (splitLocator s).1 (splitLocator s).2] ∧
    (enviar_arquivo caminho_local s true f2 u).1.head? =
      some (StorageCall.upload (splitLocator s).1 (splitLocator s).2 true
        "application/octet-stream") ∧
    (excluir_arquivo s f3).1 =
      [StorageCall.remove (splitLocator s).1 [(splitLocator s).2]] ∧
    splitLocator "bucket/a/b.tif" = ("bucket", "a/b.tif") ∧
    splitLocator "bucket" = ("bucket", "") := by
  refine ⟨?_, ?_, ?_, ?_, ?_, by decide, by decide⟩
  · intro h
    cases hsp : splitFirstSlash s.data with
    | none => simp [splitLocator, hsp]
    | some p =>
      obtain ⟨l, r⟩ := p
      obtain ⟨hcs, _⟩ := splitFirstSlash_eq_some hsp
      exact absurd (hcs ▸ List.mem_append_right l (List.mem_cons_self '/' r)) h
  · intro h
    cases hsp : splitFirstSlash s.data with
    | none => exact absurd h (splitFirstSlash_eq_none hsp)
    | some p =>
      obtain ⟨l, r⟩ := p
      simp only [splitLocator, hsp]
      exact splitFirstSlash_eq_some hsp
  · cases f1 <;> rfl
  · cases f2 with
    | none => cases u <;> rfl
    | some e => rfl
  · cases f3 <;> rfl

/-- C6 witness: the slash-free case and the slash case at concrete
locators. -/
theorem locator_split_on_first_slash_witness :
    splitLocator "bucket" = ("bucket", "") ∧
    "bucket/a".data =
      (splitLocator "bucket/a").1.data ++ '/' :: (splitLocator "bucket/a").2.data :=
  ⟨(locator_split_on_first_slash "bucket" "local.tif" none none none
      (.ok "u")).1 (by decide),
   ((locator_split_on_first_slash "bucket/a" "local.tif" none none none
      (.ok "u")).2.1 (by decide)).1⟩

/-- C7: uploading from a local path that does not exist fails with the
`FileNotFoundError` and the storage-call trace is empty: neither the
upload nor the public-URL resolution is attempted. -/
theorem upload_missing_local_file_no_network
    (caminho_local caminho_bucket : String) (uploadFault : Option String)
    (urlOutcome : Except String String) :
    enviar_arquivo caminho_local caminho_bucket false uploadFault urlOutcome =
      ([], .error (.fileNotFound
        ("Arquivo " ++ caminho_local ++ " não encontrado"))) := by
  cases uploadFault <;> cases urlOutcome <;> rfl

/-- C8: when the upload succeeds but the public-URL resolution raises, the
call returns `None` without failing, and the trace still contains the
committed upload (and no compensating removal); an error raised during
the upload itself, by contrast, propagates to the caller. -/
theorem upload_url_resolution_failure_returns_none
    (caminho_local caminho_bucket urlErr : String) :
    enviar_arquivo caminho_local caminho_bucket true none (.error urlErr) =
      ([.upload (splitLocator caminho_bucket).1 (splitLocator caminho_bucket).2
          true "application/octet-stream",
        .getPublicUrl (splitLocator caminho_bucket).1
          (splitLocator caminho_bucket).2], .ok none) ∧
    ∀ e : String,
      (enviar_arquivo caminho_local caminho_bucket true (some e)
          (.error urlErr)).2 = .error (.backend e) :=
  ⟨rfl, fun _ => rfl⟩

/-- C9: `enviar_webhook` never raises: it always returns `.ok`; it makes
exactly one POST attempt (with the constructed payload) when a webhook
URL is configured and none otherwise; and it logs success exactly when
the URL is configured and the response code is in 200-299 — any other
response or a raised transport exception is only logged. -/
theorem enviar_webhook_never_raises
    (webhook_url : Option String) (id_projeto id_talhao status : String)
    (mensagem : Option String) (post : PostOutcome) :
    ∃ r, enviar_webhook webhook_url id_projeto id_talhao status mensagem post =
        .ok r ∧
      r.postedPayloads = (if truthy webhook_url then
        [webhookPayload id_projeto id_talhao status mensagem] else []) ∧
      ((r.logs.map Prod.fst = [LogLevel.info]) ↔
        (truthy webhook_url = true ∧
          match post with
          | .resp code _ => 200 ≤ code ∧ code < 300
          | .exc _ => False)) := by
  by_cases hu : truthy webhook_url
  · cases post with
    | resp code text =>
      by_cases hc : 200 ≤ code ∧ code < 300
      · refine ⟨⟨[webhookPayload id_projeto id_talhao status mensagem],
            [(.info, "Webhook enviado com sucesso: " ++ status)]⟩, ?_, ?_, ?_⟩
        · simp [enviar_webhook, hu, hc]
        · simp [hu]
        · simp [hu, hc]
      · refine ⟨⟨[webhookPayload id_projeto id_talhao status mensagem],
            [(.error, "Falha ao enviar webhook: " ++ toString code ++ " - " ++
              text)]⟩, ?_, ?_, ?_⟩
        · simp [enviar_webhook, hu, hc]
        · simp [hu]
        · simp [hc]
    | exc m =>
      refine ⟨⟨[webhookPayload id_projeto id_talhao status mensagem],
          [(.error, "Erro ao enviar webhook: " ++ m)]⟩, ?_, ?_, ?_⟩
      · simp [enviar_webhook, hu]
      · simp [hu]
      · simp
  · refine ⟨⟨[], [(.warning,
        "URL de webhook não configurada. Notificação não enviada.")]⟩, ?_, ?_, ?_⟩
    · simp [enviar_webhook, hu]
    · simp [hu]
    · simp [hu]

/-- C10: the payload carries the `mensagem` key exactly when the supplied
message is truthy; both `None` and the empty string are falsy and leave
the key absent, so a failed run whose exception text is empty attempts an
`erro` call whose payload has no `mensagem` key; the payload posted by
`enviar_webhook` is exactly this constructed payload. -/
theorem webhook_payload_mensagem_iff_truthy
    (id_projeto id_talhao status : String) (mensagem : Option String) :
    ((webhookPayload id_projeto id_talhao status mensagem).map Prod.fst).contains
        "mensagem" = truthy mensagem ∧
    truthy none = false ∧
    truthy (some "") = false ∧
    ((webhookPayload id_projeto id_talhao "erro" (some "")).map Prod.fst).contains
        "mensagem" = false ∧
    (executar_processamento_background (some "https://sb.example")
        (some "service-key") none (.error "") none).calls =
      [⟨"iniciado", none⟩, ⟨"erro", some ""⟩] ∧
    ∃ r, enviar_webhook (some "https://wh.example") id_projeto id_talhao status
        mensagem (.resp 200 "ok") = .ok r ∧
      r.postedPayloads = [webhookPayload id_projeto id_talhao status mensagem] := by
  refine ⟨?_, rfl, rfl, ?_, by decide, ?_⟩
  · cases htm : truthy mensagem <;> simp [webhookPayload, htm]
  · simp [webhookPayload, truthy]
  · exact ⟨⟨[webhookPayload id_projeto id_talhao status mensagem],
      [(.info, "Webhook enviado com sucesso: " ++ status)]⟩,
      by simp [enviar_webhook, truthy], rfl⟩

end Processamento
